import Mathlib

/-!
Verification of the document-processing status polling protocol of the
municipal-budget monitor frontend (`frontend/src/components/PortalIngestPage.tsx`
and `frontend/src/services/api.ts`).

The development shallowly embeds:
* the `Job`, `Progress` and `Package` record shapes of the page;
* the `setCurrentJob` functional updater inside `checkJobStatus`;
* the `selectAll` / `getFilteredPackages` package-selection operations;
* the axios client configurations (`axios.create` calls);
* the timing of `setInterval`-driven poll cycles; and
* an event-loop transition system for the polling `useEffect`, the interval
  tick, the response/error handlers of `checkJobStatus` / `checkJobProgress`,
  the success path of `startProcessing`, and component unmount.

Machine numbers of the source are JavaScript numbers used only as counters
and identifiers here, so they are modelled as `Nat`; optional fields are
`Option`; `undefined`-vs-value distinctions are preserved through `Option`.
-/

/-- Status string sets used by the page: a job is "active" when its status is
the string "processing" or "pending" (PortalIngestPage.tsx line 115). -/
def isActive (status : String) : Bool :=
  status == "processing" || status == "pending"

/-- Terminal statuses checked by `checkJobStatus` (line 82). -/
def isTerminal (status : String) : Bool :=
  status == "completed" || status == "failed"

/-- The `Job` interface (PortalIngestPage.tsx lines 13-21). -/
structure Job where
  job_id : String
  status : String
  total_packages : Nat
  processed_packages : Nat
  failed_packages : Nat
  total_documents : Nat
  current_package : Option String
deriving Repr, DecidableEq

/-- The `Progress` interface (PortalIngestPage.tsx lines 23-31).  The source
field `percentage` is a JS number; no arithmetic is performed on it in the
verified operations, so `Nat` suffices as an opaque carrier. -/
structure Progress where
  current_package_index : Option Nat
  total_packages : Option Nat
  current_batch : Option Nat
  total_batches : Option Nat
  message : String
  percentage : Nat
  documents_inserted : Nat
deriving Repr, DecidableEq

/-- The `Package` interface (PortalIngestPage.tsx lines 5-11). -/
structure Package where
  name : String
  selected : Bool
  processed : Option Bool
  last_processed : Option String
  total_documents : Option Nat
deriving Repr, DecidableEq

/-- JavaScript `x || d` on an optional string: `undefined` and the empty
string are falsy and give the default (used at line 319,
`response.data.status || 'processing'`). -/
def jsOrDefault (o : Option String) (d : String) : String :=
  match o with
  | none => d
  | some s => if s.isEmpty then d else s

/-- The functional updater passed to `setCurrentJob` inside `checkJobStatus`
(PortalIngestPage.tsx lines 55-80): with no previous job the fresh response
is stored; otherwise the five compared fields decide whether the fresh
response replaces the previous value or the previous value is returned
unchanged. -/
def statusUpdater (newJob : Job) (prevJob : Option Job) : Option Job :=
  match prevJob with
  | none => some newJob
  | some prev =>
    let hasChanged :=
      (prev.processed_packages != newJob.processed_packages) ||
      (prev.failed_packages != newJob.failed_packages) ||
      (prev.total_documents != newJob.total_documents) ||
      (prev.status != newJob.status) ||
      (prev.current_package != newJob.current_package)
    if hasChanged then some newJob else some prev

/-- `needle` is a prefix of `hay` (character lists). -/
def listStartsWith : List Char → List Char → Bool
  | [], _ => true
  | _ :: _, [] => false
  | a :: as, b :: bs => a == b && listStartsWith as bs

/-- JavaScript `hay.includes(needle)` on strings, on character lists:
`needle` occurs contiguously inside `hay`. -/
def listIncludes : List Char → List Char → Bool
  | needle, [] => needle.isEmpty
  | needle, b :: bs => listStartsWith needle (b :: bs) || listIncludes needle bs

/-- The filter predicate of `getFilteredPackages` (PortalIngestPage.tsx
lines 281-285): case-insensitive substring match of the search term inside
the package name. -/
def matchesSearch (searchTerm : String) (pkg : Package) : Bool :=
  listIncludes searchTerm.toLower.data pkg.name.toLower.data

/-- `getFilteredPackages` (PortalIngestPage.tsx lines 281-285). -/
def getFilteredPackages (searchTerm : String) (packages : List Package) : List Package :=
  packages.filter (matchesSearch searchTerm)

/-- `selectAll` (PortalIngestPage.tsx lines 271-279): membership in the
filtered subset is tested by package name, and the selected flag of members
is set to the negation of "all filtered packages already selected". -/
def selectAll (searchTerm : String) (packages : List Package) : List Package :=
  let filtered := getFilteredPackages searchTerm packages
  let allSelected := filtered.all (fun pkg => pkg.selected)
  packages.map (fun pkg =>
    if filtered.any (fun f => f.name == pkg.name)
    then { pkg with selected := !allSelected }
    else pkg)

/-- Shape of an `axios.create` configuration, restricted to the options the
source passes.  `timeout = none` means the option is not set, which axios
interprets as no timeout at all. -/
structure AxiosConfig where
  baseURL : String
  timeout : Option Nat
deriving Repr, DecidableEq

/-- The axios client the poller uses (PortalIngestPage.tsx lines 33-35):
only `baseURL` is configured. -/
def portalIngestApi : AxiosConfig :=
  { baseURL := "http://localhost:4001/api", timeout := none }

/-- The shared axios client (services/api.ts lines 16-23), parametrised by
the `VITE_API_URL` environment value.  It is not the client used by
`checkJobStatus` / `checkJobProgress`. -/
def sharedApi (envURL : Option String) : AxiosConfig :=
  { baseURL := jsOrDefault envURL "http://localhost:4001/api",
    timeout := some 300000 }

/-- The poll interval in milliseconds (`setInterval(..., 5000)`,
PortalIngestPage.tsx line 143). -/
def pollIntervalMs : Nat := 5000

/-- Start time (ms) of the k-th poll cycle after the interval is created at
time `t0`: `setInterval` fires on the fixed grid regardless of whether the
previous cycle's requests have resolved, and the immediate calls of lines
133-134 form cycle 0. -/
def cycleStart (t0 k : Nat) : Nat := t0 + pollIntervalMs * k

/-- Completion time of the k-th poll cycle when its slowest response takes
`delay k` milliseconds.  The source never aborts a request (no
AbortController, no per-request timeout on `portalIngestApi`), so the cycle
completes exactly when its responses arrive. -/
def cycleFinish (t0 : Nat) (delay : Nat → Nat) (k : Nat) : Nat :=
  cycleStart t0 k + delay k

/-- Cycle k is still in flight when cycle k+1 starts. -/
def cyclesOverlap (t0 : Nat) (delay : Nat → Nat) (k : Nat) : Prop :=
  cycleStart t0 (k + 1) < cycleFinish t0 delay k

/-- Entries of the observable request/side-effect log of the model:
the two kinds of poll request issued by `checkJobStatus` and
`checkJobProgress`, and the two follow-up loads run by the terminal branch
of `checkJobStatus` (lines 85-86). -/
inductive LogEntry where
  | statusReq (jobId : String)
  | progressReq (jobId : String)
  | loadCollections
  | loadProcessedPackages
deriving Repr, DecidableEq

/-- Model state of the portal-ingest page: React state (`currentJob`,
`processing`, `progress`, `packages`), the two refs of the polling effect,
bookkeeping for fresh interval handles and request identifiers, the
in-flight request sets, the mounted flag, and the observable log. -/
structure SysState where
  mounted : Bool
  pollingInterval : Option Nat
  activeJobId : Option String
  nextHandle : Nat
  nextReqId : Nat
  currentJob : Option Job
  processing : Bool
  progress : Option Progress
  packages : List Package
  inFlightStatus : List Nat
  inFlightProgress : List Nat
  log : List LogEntry
deriving Repr, DecidableEq

/-- Issue one status request and one progress request for job `jid`
(the paired calls `checkJobStatus(jobId); checkJobProgress(jobId)` at lines
133-134 and 140-141): both enter the in-flight sets and the log. -/
def issuePoll (s : SysState) (jid : String) : SysState :=
  { s with
    inFlightStatus := s.inFlightStatus ++ [s.nextReqId],
    inFlightProgress := s.inFlightProgress ++ [s.nextReqId + 1],
    nextReqId := s.nextReqId + 2,
    log := s.log ++ [LogEntry.statusReq jid, LogEntry.progressReq jid] }

/-- `currentJob?.job_id` (line 113). -/
def jobIdOf (s : SysState) : Option String := s.currentJob.map Job.job_id

/-- `jobStatus === 'processing' || jobStatus === 'pending'` with
`jobStatus = currentJob?.status` (lines 114-115). -/
def jobActiveB (s : SysState) : Bool :=
  match s.currentJob with
  | some j => isActive j.status
  | none => false

/-- First block of the polling effect (lines 117-126): if the tracked job id
changed, clear any previous interval and update the active-job ref. -/
def effectClearOnJobChange (s : SysState) : SysState :=
  if s.activeJobId ≠ jobIdOf s then
    { s with pollingInterval := none, activeJobId := jobIdOf s }
  else s

/-- Second block of the polling effect (lines 128-146): if there is an
active job and no interval yet, immediately issue one status and one
progress request and create the 5-second interval. -/
def effectStartPolling (s : SysState) : SysState :=
  match jobIdOf s with
  | some jid =>
    if jobActiveB s && s.pollingInterval.isNone then
      { issuePoll s jid with
        pollingInterval := some s.nextHandle,
        nextHandle := s.nextHandle + 1 }
    else s
  | none => s

/-- Third block of the polling effect (lines 148-154): if the job is no
longer active and an interval exists, clear it and the active-job ref. -/
def effectStopIfInactive (s : SysState) : SysState :=
  if !jobActiveB s && s.pollingInterval.isSome then
    { s with pollingInterval := none, activeJobId := none }
  else s

/-- The polling `useEffect` body (PortalIngestPage.tsx lines 112-154); React
runs effects only on mounted components. -/
def runPollingEffect (s : SysState) : SysState :=
  if s.mounted then
    effectStopIfInactive (effectStartPolling (effectClearOnJobChange s))
  else s

/-- One firing of the interval callback (lines 137-143): if the interval is
live and the active-job ref is set, issue the paired status/progress
requests for that id. -/
def tickStep (s : SysState) : SysState :=
  if s.pollingInterval.isSome then
    match s.activeJobId with
    | some jid => issuePoll s jid
    | none => s
  else s

/-- Resolution of status request `rid` with payload `apiJob` (the body of
`checkJobStatus` after the await, lines 55-88): update `currentJob` through
`statusUpdater`; on a terminal response also clear the processing flag and
the progress panel, run the two follow-up loads, and deselect every
package.  A request id that is not in flight was never issued, so nothing
happens. -/
def handleStatusResponse (s : SysState) (rid : Nat) (apiJob : Job) : SysState :=
  if s.inFlightStatus.contains rid then
    let s0 := { s with inFlightStatus := s.inFlightStatus.erase rid }
    let s1 := { s0 with currentJob := statusUpdater apiJob s0.currentJob }
    if isTerminal apiJob.status then
      { s1 with
        processing := false,
        progress := none,
        packages := s1.packages.map (fun pkg => { pkg with selected := false }),
        log := s1.log ++ [LogEntry.loadCollections, LogEntry.loadProcessedPackages] }
    else s1
  else s

/-- Success path of `startProcessing` (PortalIngestPage.tsx lines 287-329):
with at least one selected package, `setProcessing(true)` runs and the
response of `/portal/ingest/start` is turned into a fresh `Job` stored via
`setCurrentJob`; with no selection only an error message is set. -/
def startProcessingStep (s : SysState) (respJobId : String)
    (respStatus : Option String) : SysState :=
  if s.mounted then
    let selectedPackages := s.packages.filter (fun pkg => pkg.selected)
    if selectedPackages.length == 0 then s
    else
      let newJob : Job :=
        { job_id := respJobId,
          status := jsOrDefault respStatus "processing",
          total_packages := selectedPackages.length,
          processed_packages := 0,
          failed_packages := 0,
          total_documents := 0,
          current_package := none }
      { s with processing := true, currentJob := some newJob }
  else s

/-- Component unmount: React runs the effect cleanup (lines 157-163), which
clears the interval; the active-job ref is not touched by the cleanup. -/
def unmountStep (s : SysState) : SysState :=
  { s with mounted := false, pollingInterval := none }

/-- Events of the client event loop: an effect run, an interval tick, the
success continuation of `startProcessing`, resolution or rejection of an
in-flight status/progress request, and unmount. -/
inductive Event where
  | runEffect
  | tick
  | startJob (respJobId : String) (respStatus : Option String)
  | statusResponse (rid : Nat) (apiJob : Job)
  | statusError (rid : Nat)
  | progressResponse (rid : Nat) (p : Progress)
  | progressError (rid : Nat)
  | unmount

/-- One event-loop step.  The catch branches of `checkJobStatus` and
`checkJobProgress` (lines 89-91 and 99-101) only log to the console, so the
error events merely settle the in-flight request. -/
def step (s : SysState) : Event → SysState
  | Event.runEffect => runPollingEffect s
  | Event.tick => tickStep s
  | Event.startJob jid st => startProcessingStep s jid st
  | Event.statusResponse rid j => handleStatusResponse s rid j
  | Event.statusError rid =>
      { s with inFlightStatus := s.inFlightStatus.erase rid }
  | Event.progressResponse rid p =>
      if s.inFlightProgress.contains rid then
        { s with inFlightProgress := s.inFlightProgress.erase rid,
                 progress := some p }
      else s
  | Event.progressError rid =>
      { s with inFlightProgress := s.inFlightProgress.erase rid }
  | Event.unmount => unmountStep s

/-- Run a list of events. -/
def runTrace (s : SysState) : List Event → SysState
  | [] => s
  | e :: es => runTrace (step s e) es

/-- A log entry that is a poll request (status or progress query). -/
def isPollRequest : LogEntry → Bool
  | LogEntry.statusReq _ => true
  | LogEntry.progressReq _ => true
  | _ => false

/-- Number of poll requests recorded in a log. -/
def pollRequestCount (log : List LogEntry) : Nat :=
  (log.filter isPollRequest).length

/-- Number of executions of the terminal branch's `loadCollections()`
recorded in a log. -/
def loadCollectionsCount (log : List LogEntry) : Nat :=
  (log.filter (fun e => e == LogEntry.loadCollections)).length

/-- The tracked set is empty: there is no current job, or its last fetched
status is neither pending nor processing. -/
def jobInactive : Option Job → Bool
  | none => true
  | some j => !isActive j.status

/-- Events that can make the tracked set non-empty again: a user-triggered
start whose resulting status is active, or a status response reporting an
active status (the tracked set is defined from the most recently fetched
statuses). -/
def arming : Event → Bool
  | Event.startJob _ st => isActive (jsOrDefault st "processing")
  | Event.statusResponse _ j => isActive j.status
  | _ => false

/-- The event delivers a genuinely in-flight status response that reports a
terminal status. -/
def terminalDelivery (s : SysState) : Event → Bool
  | Event.statusResponse rid j =>
      s.inFlightStatus.contains rid && isTerminal j.status
  | _ => false

theorem jobActiveB_eq_not_jobInactive (s : SysState) :
    jobActiveB s = !jobInactive s.currentJob := by
  cases h : s.currentJob <;> simp [jobActiveB, jobInactive, h]

theorem pollRequestCount_append (l l' : List LogEntry) :
    pollRequestCount (l ++ l') = pollRequestCount l + pollRequestCount l' := by
  simp [pollRequestCount, List.filter_append]

theorem loadCollectionsCount_append (l l' : List LogEntry) :
    loadCollectionsCount (l ++ l') = loadCollectionsCount l + loadCollectionsCount l' := by
  simp [loadCollectionsCount, List.filter_append]

theorem runPollingEffect_inactive (s : SysState)
    (hj : jobInactive s.currentJob = true) :
    (runPollingEffect s).currentJob = s.currentJob ∧
    (runPollingEffect s).log = s.log ∧
    (runPollingEffect s).pollingInterval = (if s.mounted then none else s.pollingInterval) ∧
    (runPollingEffect s).mounted = s.mounted := by
  cases hc : s.currentJob with
  | none =>
      unfold runPollingEffect effectStopIfInactive effectStartPolling
        effectClearOnJobChange jobActiveB jobIdOf
      simp [hc]
      split_ifs <;> simp_all
  | some j =>
      have hA : isActive j.status = false := by
        have h := hj; rw [hc] at h; simpa [jobInactive] using h
      unfold runPollingEffect effectStopIfInactive effectStartPolling
        effectClearOnJobChange jobActiveB jobIdOf
      simp [hc, hA]
      split_ifs <;> simp_all

theorem step_unmounted (s : SysState) (e : Event)
    (hm : s.mounted = false) (hi : s.pollingInterval = none) :
    (step s e).mounted = false ∧ (step s e).pollingInterval = none ∧
      pollRequestCount (step s e).log = pollRequestCount s.log := by
  cases e with
  | runEffect => simp [step, runPollingEffect, hm, hi]
  | tick => simp [step, tickStep, hm, hi]
  | startJob jid st => simp [step, startProcessingStep, hm, hi]
  | statusResponse rid j =>
      simp only [step, handleStatusResponse]
      split_ifs <;>
        simp [hm, hi, pollRequestCount_append, pollRequestCount, isPollRequest]
  | statusError rid => simp [step, hm, hi]
  | progressResponse rid p =>
      simp only [step]
      split_ifs <;> simp [hm, hi]
  | progressError rid => simp [step, hm, hi]
  | unmount => simp [step, unmountStep]

theorem runTrace_unmounted (s : SysState) (events : List Event)
    (hm : s.mounted = false) (hi : s.pollingInterval = none) :
    (runTrace s events).mounted = false ∧
    (runTrace s events).pollingInterval = none ∧
    pollRequestCount (runTrace s events).log = pollRequestCount s.log := by
  induction events generalizing s with
  | nil => exact ⟨hm, hi, rfl⟩
  | cons e es ih =>
      obtain ⟨h1, h2, h3⟩ := step_unmounted s e hm hi
      obtain ⟨g1, g2, g3⟩ := ih (step s e) h1 h2
      refine ⟨g1, g2, ?_⟩
      show pollRequestCount (runTrace (step s e) es).log = pollRequestCount s.log
      omega

theorem jobInactive_statusUpdater (j : Job) (cur : Option Job)
    (hja : isActive j.status = false) (hc : jobInactive cur = true) :
    jobInactive (statusUpdater j cur) = true := by
  cases cur with
  | none => simpa [statusUpdater, jobInactive] using hja
  | some prev =>
      simp only [statusUpdater]
      split_ifs <;> simp_all [jobInactive]

theorem step_noArm (s : SysState) (e : Event)
    (hi : s.pollingInterval = none) (hj : jobInactive s.currentJob = true)
    (ha : arming e = false) :
    (step s e).pollingInterval = none ∧
    jobInactive (step s e).currentJob = true ∧
    pollRequestCount (step s e).log = pollRequestCount s.log := by
  cases e with
  | runEffect =>
      obtain ⟨h1, h2, h3, _⟩ := runPollingEffect_inactive s hj
      refine ⟨?_, ?_, ?_⟩
      · show (runPollingEffect s).pollingInterval = none
        rw [h3]; split_ifs <;> simp [hi]
      · show jobInactive (runPollingEffect s).currentJob = true
        rw [h1]; exact hj
      · show pollRequestCount (runPollingEffect s).log = pollRequestCount s.log
        rw [h2]
  | tick => simp [step, tickStep, hi, hj]
  | startJob jid st =>
      simp only [arming] at ha
      simp only [step, startProcessingStep]
      split_ifs <;> simp_all [jobInactive]
  | statusResponse rid j =>
      simp only [arming] at ha
      simp only [step, handleStatusResponse]
      split_ifs with hc ht <;>
        simp_all [jobInactive_statusUpdater, pollRequestCount_append,
          pollRequestCount, isPollRequest, hi, hj]
  | statusError rid => simp [step, hi, hj]
  | progressResponse rid p =>
      simp only [step]
      split_ifs <;> simp [hi, hj]
  | progressError rid => simp [step, hi, hj]
  | unmount => simp [step, unmountStep, hi, hj]

theorem runTrace_noArm (s : SysState) (events : List Event)
    (hi : s.pollingInterval = none) (hj : jobInactive s.currentJob = true)
    (ha : ∀ e ∈ events, arming e = false) :
    (runTrace s events).pollingInterval = none ∧
    jobInactive (runTrace s events).currentJob = true ∧
    pollRequestCount (runTrace s events).log = pollRequestCount s.log := by
  induction events generalizing s with
  | nil => exact ⟨hi, hj, rfl⟩
  | cons e es ih =>
      obtain ⟨h1, h2, h3⟩ := step_noArm s e hi hj (ha e (by simp))
      obtain ⟨g1, g2, g3⟩ := ih (step s e) h1 h2 (fun x hx => ha x (by simp [hx]))
      refine ⟨g1, g2, ?_⟩
      show pollRequestCount (runTrace (step s e) es).log = pollRequestCount s.log
      omega

theorem tickStep_log (s : SysState) :
    (tickStep s).log = s.log ++
      (if s.pollingInterval.isSome then
        match s.activeJobId with
        | some jid => [LogEntry.statusReq jid, LogEntry.progressReq jid]
        | none => []
      else []) := by
  unfold tickStep issuePoll
  split_ifs with h
  · cases s.activeJobId <;> simp
  · simp

/-- Log entries the next interval firing would add, as a function of the
current state. -/
def nextTickRequests (s : SysState) : List LogEntry :=
  (tickStep s).log.drop s.log.length

theorem nextTickRequests_eq (s : SysState) :
    nextTickRequests s =
      (if s.pollingInterval.isSome then
        match s.activeJobId with
        | some jid => [LogEntry.statusReq jid, LogEntry.progressReq jid]
        | none => []
      else []) := by
  unfold nextTickRequests
  rw [tickStep_log]
  simp

theorem effectClearOnJobChange_log (s : SysState) :
    (effectClearOnJobChange s).log = s.log := by
  unfold effectClearOnJobChange; split_ifs <;> rfl

theorem effectStopIfInactive_log (s : SysState) :
    (effectStopIfInactive s).log = s.log := by
  unfold effectStopIfInactive; split_ifs <;> rfl

theorem loadCollectionsCount_effectStartPolling (s : SysState) :
    loadCollectionsCount (effectStartPolling s).log = loadCollectionsCount s.log := by
  unfold effectStartPolling issuePoll
  cases h : jobIdOf s with
  | none => rfl
  | some jid =>
      split_ifs <;> simp [loadCollectionsCount_append, loadCollectionsCount]

theorem loadCollectionsCount_runPollingEffect (s : SysState) :
    loadCollectionsCount (runPollingEffect s).log = loadCollectionsCount s.log := by
  unfold runPollingEffect
  split_ifs
  · rw [effectStopIfInactive_log, loadCollectionsCount_effectStartPolling,
      effectClearOnJobChange_log]
  · rfl

theorem loadCollectionsCount_tickStep (s : SysState) :
    loadCollectionsCount (tickStep s).log = loadCollectionsCount s.log := by
  rw [tickStep_log, loadCollectionsCount_append]
  split_ifs
  · cases s.activeJobId <;> simp [loadCollectionsCount]
  · simp [loadCollectionsCount]

theorem matchesSearch_of_name_eq (t : String) (p q : Package) (h : p.name = q.name) :
    matchesSearch t p = matchesSearch t q := by
  simp [matchesSearch, h]

theorem filtered_any_name (t : String) (ps : List Package) (pkg : Package)
    (hmem : pkg ∈ ps) :
    ((getFilteredPackages t ps).any (fun f => f.name == pkg.name)) =
      matchesSearch t pkg := by
  cases hm : matchesSearch t pkg with
  | true =>
      apply List.any_eq_true.2
      refine ⟨pkg, List.mem_filter.2 ⟨hmem, hm⟩, by simp⟩
  | false =>
      apply List.any_eq_false.2
      intro f hf
      have hmf : matchesSearch t f = true := (List.mem_filter.1 hf).2
      intro hbeq
      have hname : f.name = pkg.name := by
        simpa using hbeq
      rw [matchesSearch_of_name_eq t f pkg hname] at hmf
      rw [hm] at hmf
      exact Bool.noConfusion hmf

/-- Initial page state for concrete scenarios: mounted, idle poller, one
selected package, nothing tracked, empty log. -/
def initState : SysState :=
  { mounted := true, pollingInterval := none, activeJobId := none,
    nextHandle := 0, nextReqId := 0, currentJob := none, processing := false,
    progress := none,
    packages := [{ name := "pkg1", selected := true, processed := none,
                   last_processed := none, total_documents := none }],
    inFlightStatus := [], inFlightProgress := [], log := [] }

/-- A terminal status payload for job "j1" as returned by the status
endpoint. -/
def completedJob : Job :=
  { job_id := "j1", status := "completed", total_packages := 1,
    processed_packages := 1, failed_packages := 0, total_documents := 10,
    current_package := none }

/-- C1 is false as stated: with the interval created at time 0 and a server
response delay of 6000 ms for cycle 0, cycle 1 is scheduled by `setInterval`
at 5000 ms while cycle 0 is still in flight — the code never awaits or
aborts the previous cycle, so the two poll cycles overlap. -/
theorem c1_overlap_counterexample : cyclesOverlap 0 (fun _ => 6000) 0 := by
  simp [cyclesOverlap, cycleStart, cycleFinish, pollIntervalMs]

/-- C1 amended: no two consecutive poll cycles overlap provided the cycle's
responses arrive within the 5-second poll interval; the code schedules
cycles on the fixed `setInterval` grid independent of in-flight requests
and never abandons a cycle, so this delay bound is exactly what rules out
overlap. -/
theorem c1_no_overlap_of_delay_le_interval (t0 : Nat) (delay : Nat → Nat)
    (k : Nat) (h : delay k ≤ pollIntervalMs) :
    ¬ cyclesOverlap t0 delay k := by
  simp only [cyclesOverlap, cycleFinish, cycleStart, pollIntervalMs] at h ⊢
  omega

/-- C1 witness: a 3000 ms response delay satisfies the bound and the
corresponding cycles do not overlap. -/
theorem c1_no_overlap_witness :
    (fun _ : Nat => 3000) 0 ≤ pollIntervalMs ∧
    ¬ cyclesOverlap 0 (fun _ => 3000) 0 :=
  ⟨by decide, c1_no_overlap_of_delay_le_interval 0 (fun _ => 3000) 0 (by decide)⟩

/-- C2 is false as stated: a status request issued before teardown and
resolving afterwards still runs the `checkJobStatus` continuation — a
poller callback fires after teardown, performs its follow-up loads and
applies the state-setter calls (here `setProcessing(false)` flips the
processing flag); nothing in the poller discards the in-flight result. -/
theorem c2_inflight_callback_after_unmount :
    (runTrace initState
        [Event.startJob "j1" none, Event.runEffect, Event.unmount]).mounted = false ∧
    (runTrace initState
        [Event.startJob "j1" none, Event.runEffect, Event.unmount]).processing = true ∧
    (runTrace initState
        [Event.startJob "j1" none, Event.runEffect, Event.unmount,
         Event.statusResponse 0 completedJob]).processing = false ∧
    (runTrace initState
        [Event.startJob "j1" none, Event.runEffect, Event.unmount,
         Event.statusResponse 0 completedJob]).log.length =
      (runTrace initState
        [Event.startJob "j1" none, Event.runEffect, Event.unmount]).log.length + 2 := by
  decide

/-- C2 amended: teardown cancels the interval timer, so after unmount no
further interval ticks fire and no further poll requests are ever issued,
for every continuation of the trace; the completion handler of a request
already in flight may however still run and call the state setters — the
poller itself does not discard in-flight results. -/
theorem c2_no_poll_requests_after_unmount (s : SysState) (events : List Event) :
    (step s Event.unmount).pollingInterval = none ∧
    pollRequestCount (runTrace (step s Event.unmount) events).log =
      pollRequestCount (step s Event.unmount).log := by
  have h := runTrace_unmounted (step s Event.unmount) events
    (by simp [step, unmountStep]) (by simp [step, unmountStep])
  exact ⟨by simp [step, unmountStep], h.2.2⟩

/-- Events leading to a state where the terminal transition of job "j1" has
already been surfaced once and polling has been stopped, while a second
status request (issued by the overlapping tick) is still in flight. -/
def c3Events : List Event :=
  [Event.startJob "j1" none, Event.runEffect, Event.tick,
   Event.statusResponse 0 completedJob, Event.runEffect]

/-- C3 is false as stated: after the terminal transition was surfaced once
(one `loadCollections` execution) and the polling effect has stopped the
interval, the response of a status request that was still in flight
observes the same job in the same terminal state and re-executes the
terminal side effects (a second `loadCollections` execution). -/
theorem c3_terminal_effects_reexecuted :
    loadCollectionsCount (runTrace initState c3Events).log = 1 ∧
    (runTrace initState c3Events).currentJob.map Job.status = some "completed" ∧
    (runTrace initState c3Events).pollingInterval = none ∧
    loadCollectionsCount (step (runTrace initState c3Events)
        (Event.statusResponse 2 completedJob)).log = 2 := by
  decide

/-- C3 amended: the terminal side effects execute exactly once per delivered
terminal status response — every event adds one execution when it delivers
an in-flight status response reporting a terminal status and zero
executions otherwise.  The transition is therefore surfaced exactly once
whenever a single terminal response is delivered, but each additional
response still in flight (from an overlapping cycle) re-executes the side
effects. -/
theorem c3_terminal_effects_once_per_delivery (s : SysState) (e : Event) :
    loadCollectionsCount (step s e).log =
      loadCollectionsCount s.log + (if terminalDelivery s e then 1 else 0) := by
  cases e with
  | runEffect => simp [step, terminalDelivery, loadCollectionsCount_runPollingEffect]
  | tick => simp [step, terminalDelivery, loadCollectionsCount_tickStep]
  | startJob jid st =>
      simp only [step, startProcessingStep, terminalDelivery]
      split_ifs <;> simp_all
  | statusResponse rid j =>
      simp only [step, handleStatusResponse, terminalDelivery]
      split_ifs <;>
        simp_all [loadCollectionsCount_append, loadCollectionsCount]
  | statusError rid => simp [step, terminalDelivery]
  | progressResponse rid p =>
      simp only [step, terminalDelivery]
      split_ifs <;> simp_all
  | progressError rid => simp [step, terminalDelivery]
  | unmount => simp [step, unmountStep, terminalDelivery]

/-- C4: once the tracked set is empty — the last fetched status of the
current job is terminal (or there is no job) and the polling effect has
recomputed its refs from it — the interval is cleared and no further poll
requests are issued along any continuation of the trace in which no event
re-populates the tracked set (no user-triggered start with an active
status and no status response reporting an active status). -/
theorem c4_no_idle_polling (s : SysState) (events : List Event)
    (hm : s.mounted = true)
    (hj : jobInactive s.currentJob = true)
    (ha : ∀ e ∈ events, arming e = false) :
    (runPollingEffect s).pollingInterval = none ∧
    pollRequestCount (runTrace (runPollingEffect s) events).log =
      pollRequestCount (runPollingEffect s).log := by
  obtain ⟨h1, h2, h3, _⟩ := runPollingEffect_inactive s hj
  have hInt : (runPollingEffect s).pollingInterval = none := by
    rw [h3]; simp [hm]
  have hJob : jobInactive (runPollingEffect s).currentJob = true := by
    rw [h1]; exact hj
  obtain ⟨_, _, g3⟩ := runTrace_noArm _ events hInt hJob ha
  exact ⟨hInt, g3⟩

/-- Concrete state for the C4 witness: job "j1" already fetched in the
terminal state while the interval from its active phase is still set. -/
def c4State : SysState :=
  { initState with currentJob := some completedJob,
                   pollingInterval := some 0, activeJobId := some "j1" }

/-- C4 witness: at the concrete state the effect clears the interval and a
continuation of one tick, one settled error and an unmount issues no poll
request. -/
theorem c4_no_idle_polling_witness :
    c4State.mounted = true ∧ jobInactive c4State.currentJob = true ∧
    ((runPollingEffect c4State).pollingInterval = none ∧
     pollRequestCount (runTrace (runPollingEffect c4State)
        [Event.tick, Event.statusError 0, Event.unmount]).log =
       pollRequestCount (runPollingEffect c4State).log) :=
  ⟨rfl, by decide,
   c4_no_idle_polling c4State [Event.tick, Event.statusError 0, Event.unmount]
     rfl (by decide) (by decide)⟩

/-- State reached after the user starts processing a job that the server
reports as `pending` and the polling effect has armed the poller. -/
def c5PendingState : SysState :=
  runTrace initState [Event.startJob "j1" (some "pending"), Event.runEffect]

/-- C5 is false as stated: while the tracked job is still `pending` (not
`processing`), the interval callback nevertheless issues a progress query
together with the status query — the code polls progress unconditionally
for the tracked job. -/
theorem c5_progress_polled_while_pending :
    c5PendingState.currentJob.map Job.status = some "pending" ∧
    (tickStep c5PendingState).log =
      c5PendingState.log ++ [LogEntry.statusReq "j1", LogEntry.progressReq "j1"] := by
  decide

/-- C5 amended: while the poller is armed (interval set, active-job ref
set), each poll cycle runs on the fixed 5-second interval and issues
exactly one status query and one progress query for the tracked job,
regardless of whether its status is pending or processing. -/
theorem c5_tick_issues_status_and_progress (s : SysState) (jid : String)
    (h1 : s.pollingInterval.isSome = true) (h2 : s.activeJobId = some jid) :
    (tickStep s).log = s.log ++ [LogEntry.statusReq jid, LogEntry.progressReq jid] ∧
    pollIntervalMs = 5000 := by
  refine ⟨?_, rfl⟩
  rw [tickStep_log, h1, h2]
  rfl

/-- C5 witness: the amended per-cycle request pattern at the concrete
pending-job state. -/
theorem c5_tick_witness :
    c5PendingState.pollingInterval.isSome = true ∧
    c5PendingState.activeJobId = some "j1" ∧
    ((tickStep c5PendingState).log =
       c5PendingState.log ++ [LogEntry.statusReq "j1", LogEntry.progressReq "j1"] ∧
     pollIntervalMs = 5000) :=
  ⟨by decide, by decide,
   c5_tick_issues_status_and_progress c5PendingState "j1" (by decide) (by decide)⟩

/-- C6: from any mounted state with an idle poller (no interval), a
user-triggered start whose response yields an active status (pending or
processing) re-arms the poller through the effect: the interval is created,
the active-job ref is set to the new job id, and the first status and
progress queries are issued immediately — no reliance on any previously
computed empty tracked set. -/
theorem c6_start_rearms_poller (s : SysState) (respJobId : String)
    (respStatus : Option String)
    (hm : s.mounted = true)
    (hi : s.pollingInterval = none)
    (hsel : (s.packages.filter (fun pkg => pkg.selected)).length ≠ 0)
    (hact : isActive (jsOrDefault respStatus "processing") = true) :
    ((step (step s (Event.startJob respJobId respStatus)) Event.runEffect).pollingInterval.isSome = true) ∧
    (step (step s (Event.startJob respJobId respStatus)) Event.runEffect).activeJobId = some respJobId ∧
    (step (step s (Event.startJob respJobId respStatus)) Event.runEffect).log =
      s.log ++ [LogEntry.statusReq respJobId, LogEntry.progressReq respJobId] := by
  have hne : ((s.packages.filter (fun pkg => pkg.selected)).length == 0) = false :=
    beq_eq_false_iff_ne.mpr hsel
  have hs1 : step s (Event.startJob respJobId respStatus) =
      { s with processing := true,
               currentJob := some
                 { job_id := respJobId,
                   status := jsOrDefault respStatus "processing",
                   total_packages := (s.packages.filter (fun pkg => pkg.selected)).length,
                   processed_packages := 0, failed_packages := 0,
                   total_documents := 0, current_package := none } } := by
    simp [step, startProcessingStep, hm, hne]
  rw [hs1]
  by_cases hA : s.activeJobId = some respJobId <;>
    simp [step, runPollingEffect, effectClearOnJobChange, effectStartPolling,
      effectStopIfInactive, jobIdOf, jobActiveB, issuePoll, hA, hact, hi, hm]

/-- C6 witness: starting a job from the idle initial state re-arms the
poller and issues the first poll immediately. -/
theorem c6_start_rearms_witness :
    initState.mounted = true ∧ initState.pollingInterval = none ∧
    (initState.packages.filter (fun pkg => pkg.selected)).length ≠ 0 ∧
    isActive (jsOrDefault none "processing") = true ∧
    (((step (step initState (Event.startJob "j1" none)) Event.runEffect).pollingInterval.isSome = true) ∧
     (step (step initState (Event.startJob "j1" none)) Event.runEffect).activeJobId = some "j1" ∧
     (step (step initState (Event.startJob "j1" none)) Event.runEffect).log =
       initState.log ++ [LogEntry.statusReq "j1", LogEntry.progressReq "j1"]) :=
  ⟨rfl, rfl, by decide, by decide,
   c6_start_rearms_poller initState "j1" none rfl rfl (by decide) (by decide)⟩

/-- C7: a failed status or progress request is a no-op for that cycle — the
catch branches only log to the console, so the stored job, the processing
flag, the progress panel, the package list, the interval and the
active-job ref are all left unchanged, and the requests the next interval
firing would issue are unaffected, so the next scheduled cycle still
runs. -/
theorem c7_error_leaves_state_unchanged (s : SysState) (rid : Nat) :
    ((step s (Event.statusError rid)).currentJob = s.currentJob ∧
     (step s (Event.statusError rid)).processing = s.processing ∧
     (step s (Event.statusError rid)).progress = s.progress ∧
     (step s (Event.statusError rid)).packages = s.packages ∧
     (step s (Event.statusError rid)).pollingInterval = s.pollingInterval ∧
     (step s (Event.statusError rid)).activeJobId = s.activeJobId ∧
     (step s (Event.statusError rid)).log = s.log ∧
     nextTickRequests (step s (Event.statusError rid)) = nextTickRequests s) ∧
    ((step s (Event.progressError rid)).currentJob = s.currentJob ∧
     (step s (Event.progressError rid)).processing = s.processing ∧
     (step s (Event.progressError rid)).progress = s.progress ∧
     (step s (Event.progressError rid)).packages = s.packages ∧
     (step s (Event.progressError rid)).pollingInterval = s.pollingInterval ∧
     (step s (Event.progressError rid)).activeJobId = s.activeJobId ∧
     (step s (Event.progressError rid)).log = s.log ∧
     nextTickRequests (step s (Event.progressError rid)) = nextTickRequests s) := by
  refine ⟨⟨rfl, rfl, rfl, rfl, rfl, rfl, rfl, ?_⟩, rfl, rfl, rfl, rfl, rfl, rfl, rfl, ?_⟩ <;>
    · rw [nextTickRequests_eq, nextTickRequests_eq]
      rfl

/-- C8 is false as stated: the axios client through which every status and
progress poll request is sent configures no timeout at all (axios treats an
absent timeout as unlimited), so poll requests carry no finite per-request
timeout. -/
theorem c8_no_finite_timeout : ¬ ∃ t : Nat, portalIngestApi.timeout = some t := by
  intro h
  obtain ⟨t, ht⟩ := h
  simp [portalIngestApi] at ht

/-- C8 amended: poll requests carry no per-request timeout — the poller's
own axios client sets only a base URL, while the 300000 ms timeout lives on
the shared api client the poller does not use; nevertheless a slow request
cannot delay the scheduling of the next cycle, because `setInterval` places
cycle starts on the fixed 5-second grid independently of response
delays. -/
theorem c8_no_timeout_but_schedule_independent :
    portalIngestApi.timeout = none ∧
    (∀ envURL : Option String, (sharedApi envURL).timeout = some 300000) ∧
    (∀ t0 k : Nat, cycleStart t0 (k + 1) = cycleStart t0 k + pollIntervalMs) := by
  refine ⟨rfl, fun _ => rfl, fun t0 k => ?_⟩
  simp only [cycleStart, pollIntervalMs]
  ring

/-- C9: the `setCurrentJob` updater of `checkJobStatus` is idempotent on
unchanged responses — whenever the fresh response agrees with the previous
job on status, processed_packages, failed_packages, total_documents and
current_package, the updater returns the previous value itself (even when
uncompared fields such as total_packages differ), so repeated identical
responses are no-ops. -/
theorem c9_status_updater_idempotent (newJob prev : Job)
    (h1 : prev.status = newJob.status)
    (h2 : prev.processed_packages = newJob.processed_packages)
    (h3 : prev.failed_packages = newJob.failed_packages)
    (h4 : prev.total_documents = newJob.total_documents)
    (h5 : prev.current_package = newJob.current_package) :
    statusUpdater newJob (some prev) = some prev := by
  simp [statusUpdater, h1, h2, h3, h4, h5]

/-- Previous job value for the C9 witness. -/
def c9Prev : Job :=
  { job_id := "j1", status := "processing", total_packages := 3,
    processed_packages := 1, failed_packages := 0, total_documents := 5,
    current_package := some "a" }

/-- Fresh response for the C9 witness: agrees with `c9Prev` on all five
compared fields but differs on `total_packages` and `job_id`. -/
def c9New : Job :=
  { c9Prev with total_packages := 99, job_id := "other" }

/-- C9 witness: at the concrete pair of jobs the updater keeps the previous
value, although the fresh response is a different value. -/
theorem c9_status_updater_witness :
    (c9Prev.status = c9New.status ∧
     c9Prev.processed_packages = c9New.processed_packages ∧
     c9Prev.failed_packages = c9New.failed_packages ∧
     c9Prev.total_documents = c9New.total_documents ∧
     c9Prev.current_package = c9New.current_package ∧
     c9New ≠ c9Prev) ∧
    statusUpdater c9New (some c9Prev) = some c9Prev :=
  ⟨by decide, c9_status_updater_idempotent c9New c9Prev rfl rfl rfl rfl rfl⟩

/-- C10: `selectAll` touches exactly the selected flag of the packages
matching the current search filter — every package outside the filtered
subset is returned unchanged (all fields), and every matching package is
returned with only its selected flag rewritten to true unless all filtered
packages were already selected, in which case to false; all other fields of
matching packages are kept by the record update. -/
theorem c10_select_all_frame (searchTerm : String) (packages : List Package) :
    selectAll searchTerm packages =
      packages.map (fun pkg =>
        if matchesSearch searchTerm pkg then
          { pkg with selected :=
              !((getFilteredPackages searchTerm packages).all
                  (fun p => p.selected)) }
        else pkg) := by
  unfold selectAll
  apply List.map_congr_left
  intro pkg hmem
  rw [filtered_any_name searchTerm packages pkg hmem]
